import Mathlib

/-!
Verification development for `src/jira-spillover.py`: a shallow embedding of
the paginated fetch loops (`get_sprints`, `get_issues_for_sprint`), the
spillover classifier (`get_spillover_reason`) and the classify-then-aggregate
pipeline (`analyze_spillovers`), together with theorems about them.

Modelling conventions:
- A JSON object field is a `JField`: the key can be absent, present with JSON
  null, or present with a value.  Python `dict.get(k, d)` yields the default
  on an absent key but yields `None` on a null value; a subsequent attribute
  access (`.get`, `.lower`) on `None` raises `AttributeError`.  Fallible code
  paths therefore land in `Except String`.
- Timestamps are modelled as digit strings; `pd.to_datetime(x, errors="coerce")`
  is `toDatetimeCoerce` (parse failure and `None` both give `none`, pandas
  `NaT`), and a `NaT` operand makes `>` false (`natGtOpt`).  The bare
  `pd.to_datetime(x)` used on sprint bounds raises on a parse failure
  (`toDatetimeStrict`).
- The upstream HTTP service is a `Server`: a pure map from a page offset to a
  page payload.  The unbounded `while True` loops take explicit fuel and
  return `none` when the fuel runs out, so non-termination is provable.
-/

/-- Decidable equality for `Except`, so concrete runs can be checked with
`decide`. -/
instance {ε α : Type} [DecidableEq ε] [DecidableEq α] : DecidableEq (Except ε α) := fun x y =>
  match x, y with
  | .error a, .error b =>
    if h : a = b then isTrue (by rw [h]) else isFalse (by intro hc; cases hc; exact h rfl)
  | .error _, .ok _ => isFalse (by intro hc; cases hc)
  | .ok _, .error _ => isFalse (by intro hc; cases hc)
  | .ok a, .ok b =>
    if h : a = b then isTrue (by rw [h]) else isFalse (by intro hc; cases hc; exact h rfl)

/-- A JSON object field: the key may be absent, present with null, or present
with a value. -/
inductive JField (α : Type) where
  | absent
  | null
  | val (a : α)
deriving DecidableEq

/-- Python `dict.get(key, default)`: the default on an absent key, `None`
(modelled `none`) on a null value, the value otherwise. -/
def pyGetD {α : Type} (f : JField α) (d : α) : Option α :=
  match f with
  | .absent => some d
  | .null => none
  | .val a => some a

/-- Python `dict.get(key)` with no default: `None` on an absent or null key. -/
def pyGet {α : Type} (f : JField α) : Option α :=
  match f with
  | .absent => none
  | .null => none
  | .val a => some a

/-- The `statusCategory` object inside a Jira `status` field. -/
structure StatusCat where
  name : JField String
deriving DecidableEq

/-- The `status` object of an issue. -/
structure StatusObj where
  statusCategory : JField StatusCat
deriving DecidableEq

/-- The `assignee` object of an issue. -/
structure AssigneeObj where
  displayName : JField String
deriving DecidableEq

/-- The `fields` object of a Jira issue, restricted to the keys the script
reads.  `customfield_10016` is the story-point estimate. -/
structure Fields where
  status : JField StatusObj
  created : JField String
  updated : JField String
  customfield_10016 : JField Int
  assignee : JField AssigneeObj
  summary : JField String
deriving DecidableEq

/-- A Jira issue: the script indexes `issue["key"]` and `issue["fields"]`
directly, so both are required. -/
structure Issue where
  key : String
  fields : Fields
deriving DecidableEq

/-- Python `fields.get("status", \x7b\x7d).get("statusCategory", \x7b\x7d).get("name", "")`:
each `.get` on a `None` left of the dot raises `AttributeError`; the final
result is `None` exactly when the `name` key holds null. -/
def statusOfFields (fs : Fields) : Except String (Option String) :=
  match pyGetD fs.status ⟨.absent⟩ with
  | none => .error "AttributeError"
  | some o =>
    match pyGetD o.statusCategory ⟨.absent⟩ with
    | none => .error "AttributeError"
    | some c => .ok (pyGetD c.name "")

/-- Python `fields.get("assignee", \x7b\x7d).get("displayName", "Unassigned")`:
raises `AttributeError` when the `assignee` key holds null; yields `None`
when `displayName` holds null. -/
def assigneeOfFields (fs : Fields) : Except String (Option String) :=
  match pyGetD fs.assignee ⟨.absent⟩ with
  | none => .error "AttributeError"
  | some o => .ok (pyGetD o.displayName "Unassigned")

/-- Python `s.lower()`, written over the character list so that the kernel can
evaluate it. -/
def pyLower (s : String) : String :=
  ⟨s.data.map Char.toLower⟩

/-- Datetimes are digit strings; the parse succeeds exactly on nonempty
all-digit strings (written over the character list so that the kernel can
evaluate it). -/
def parseTs (s : String) : Option Nat :=
  if s.data ≠ [] ∧ s.data.all Char.isDigit then
    some (s.data.foldl (fun n c => n * 10 + (c.toNat - 48)) 0)
  else none

/-- Model of `pd.to_datetime(x, errors="coerce")`: `None` and parse failures
both coerce to `NaT` (here `none`). -/
def toDatetimeCoerce (x : Option String) : Option Nat :=
  x.bind parseTs

/-- Model of bare `pd.to_datetime(x)` on sprint bounds: raises on a parse
failure. -/
def toDatetimeStrict (s : String) : Except String Nat :=
  match parseTs s with
  | some n => .ok n
  | none => .error "DateParseError"

/-- Pandas comparison `x > t` where `x` may be `NaT`: any comparison against
`NaT` is false. -/
def natGtOpt (x : Option Nat) (t : Nat) : Bool :=
  match x with
  | none => false
  | some a => decide (a > t)

/-- Python `story_points and story_points >= 8`: `None` and `0` are falsy and
short-circuit, so the `>= 8` comparison only runs on a nonzero number. -/
def spCond (sp : Option Int) : Bool :=
  match sp with
  | none => false
  | some n => decide (n ≠ 0) && decide (n ≥ 8)

/-- Embedding of `get_spillover_reason(issue, sprint_start, sprint_end)`
(src/jira-spillover.py lines 46-67).  Lines 48-52 read the fields (and can
raise on null-valued `status`/`statusCategory`/`name`/`assignee`); then the
rule cascade runs in source order, parsing `sprint_start`/`sprint_end` with
the raising `pd.to_datetime` only when the corresponding rule is reached. -/
def get_spillover_reason (issue : Issue) (sprint_start sprint_end : String) :
    Except String (Option String) :=
  match statusOfFields issue.fields with
  | .error e => .error e
  | .ok status =>
    let created := toDatetimeCoerce (pyGet issue.fields.created)
    let updated := toDatetimeCoerce (pyGet issue.fields.updated)
    let story_points := pyGetD issue.fields.customfield_10016 0
    match assigneeOfFields issue.fields with
    | .error e => .error e
    | .ok assignee =>
      match status with
      | none => .error "AttributeError"
      | some statusName =>
        if pyLower statusName = "done" then .ok none
        else
          match toDatetimeStrict sprint_start with
          | .error e => .error e
          | .ok ss =>
            if natGtOpt created ss then .ok (some "Scope added mid-sprint")
            else if spCond story_points then .ok (some "Underestimated effort")
            else
              match toDatetimeStrict sprint_end with
              | .error e => .error e
              | .ok se =>
                if natGtOpt updated se then .ok (some "Carried over work post-sprint")
                else if assignee = some "Unassigned" then .ok (some "No assignee during sprint")
                else .ok (some "General delay / blocked")

example : get_spillover_reason
    ⟨"K", ⟨.val ⟨.val ⟨.val "Done"⟩⟩, .absent, .absent, .absent, .absent, .absent⟩⟩
    "junk" "junk" = .ok none := by decide

example : get_spillover_reason
    ⟨"K", ⟨.val ⟨.val ⟨.val "To Do"⟩⟩, .absent, .absent, .val 8, .absent, .absent⟩⟩
    "100" "200" = .ok (some "Underestimated effort") := by decide

example : get_spillover_reason
    ⟨"K", ⟨.val ⟨.val ⟨.val "To Do"⟩⟩, .absent, .absent, .absent, .null, .absent⟩⟩
    "100" "200" = .error "AttributeError" := by decide

/-- A sprint record: `sprint["id"]` and `sprint["name"]` are indexed directly
(required), `startDate`/`endDate` are read with `.get` (optional). -/
structure Sprint where
  id : Nat
  name : String
  startDate : JField String
  endDate : JField String
deriving DecidableEq

/-- One page payload of the sprint-list endpoint: the `values` list plus the
`isLast` end-of-data indicator, which the payload may omit. -/
structure SprintPage where
  values : List Sprint
  isLast : JField Bool
deriving DecidableEq

/-- One page payload of the issues-for-sprint endpoint. -/
structure IssuePage where
  issues : List Issue
  isLast : JField Bool
deriving DecidableEq

/-- The upstream service: a pure map from request parameters to page
payloads.  `sprintPage` takes the `startAt` offset; `issuePage` takes the
sprint id and the `startAt` offset. -/
structure Server where
  sprintPage : Nat → SprintPage
  issuePage : Nat → Nat → IssuePage

/-- Python truthiness of `data.get("isLast", True)`: the default `True` on an
absent key, falsy `None` on a null value, the boolean otherwise. -/
def pyTruthyBool (x : Option Bool) : Bool :=
  match x with
  | none => false
  | some b => b

/-- The `while True` loop of `get_sprints` (src/jira-spillover.py lines
22-28), with explicit fuel and a log of the `startAt` offset of every request
issued.  Each iteration requests one page, extends the accumulator, then
breaks exactly when `data.get("isLast", True)` is truthy; there is no
empty-page check, and the offset advances by the page length. -/
def getSprintsLoop (server : Server) :
    Nat → Nat → List Sprint → List Nat → Option (List Sprint × List Nat)
  | 0, _, _, _ => none
  | fuel + 1, start_at, sprints, reqs =>
    let data := server.sprintPage start_at
    let sprints2 := sprints ++ data.values
    let reqs2 := reqs ++ [start_at]
    if pyTruthyBool (pyGetD data.isLast true) then some (sprints2, reqs2)
    else getSprintsLoop server fuel (start_at + data.values.length) sprints2 reqs2

/-- Embedding of `get_sprints(board_id)`: run the loop from offset 0. -/
def get_sprints (server : Server) (fuel : Nat) : Option (List Sprint × List Nat) :=
  getSprintsLoop server fuel 0 [] []

/-- The `while True` loop of `get_issues_for_sprint` (src/jira-spillover.py
lines 36-42), with explicit fuel and a request log.  Unlike the sprints loop,
the break condition is `data.get("isLast", True) or len(...) == 0`: an empty
page also stops the loop. -/
def getIssuesLoop (server : Server) (sprint_id : Nat) :
    Nat → Nat → List Issue → List Nat → Option (List Issue × List Nat)
  | 0, _, _, _ => none
  | fuel + 1, start_at, issues, reqs =>
    let data := server.issuePage sprint_id start_at
    let issues2 := issues ++ data.issues
    let reqs2 := reqs ++ [start_at]
    if pyTruthyBool (pyGetD data.isLast true) || data.issues.length == 0 then
      some (issues2, reqs2)
    else getIssuesLoop server sprint_id fuel (start_at + data.issues.length) issues2 reqs2

/-- Embedding of `get_issues_for_sprint(sprint_id)`: run the loop from
offset 0. -/
def get_issues_for_sprint (server : Server) (fuel : Nat) (sprint_id : Nat) :
    Option (List Issue × List Nat) :=
  getIssuesLoop server sprint_id fuel 0 [] []

/-- One row of the `records` list built by `analyze_spillovers`
(src/jira-spillover.py lines 95-103).  `assignee`, `summary` and `status` are
`Option` because the corresponding Python expressions can give `None` (a
null-valued `displayName`, `summary` or status-category `name`). -/
structure Row where
  sprint : String
  assignee : Option String
  key : String
  summary : Option String
  status : Option String
  storyPoints : Option Int
  reason : Option String
deriving DecidableEq

/-- The per-issue body of the sprint loop (src/jira-spillover.py lines
88-103): read assignee, status and story points, classify, and build the
record.  Any `AttributeError` propagates. -/
def processIssue (sprint_name sprint_start sprint_end : String) (issue : Issue) :
    Except String Row :=
  match assigneeOfFields issue.fields with
  | .error e => .error e
  | .ok assignee =>
    match statusOfFields issue.fields with
    | .error e => .error e
    | .ok status =>
      let story_points := pyGetD issue.fields.customfield_10016 0
      match get_spillover_reason issue sprint_start sprint_end with
      | .error e => .error e
      | .ok reason =>
        .ok { sprint := sprint_name
              assignee := assignee
              key := issue.key
              summary := pyGetD issue.fields.summary ""
              status := status
              storyPoints := story_points
              reason := reason }

/-- Process a list of issues in order, stopping at the first error. -/
def processIssues (sprint_name sprint_start sprint_end : String) :
    List Issue → Except String (List Row)
  | [] => .ok []
  | issue :: rest =>
    match processIssue sprint_name sprint_start sprint_end issue with
    | .error e => .error e
    | .ok r =>
      match processIssues sprint_name sprint_start sprint_end rest with
      | .error e => .error e
      | .ok rs => .ok (r :: rs)

/-- Python truthiness of an optional string: `None` and `""` are falsy. -/
def pyTruthyStr (x : Option String) : Bool :=
  match x with
  | none => false
  | some s => !(s.data == [])

/-- A failure of the whole run: either the fuel of a fetch loop ran out, or a
Python exception propagated out of the per-issue processing. -/
inductive RunErr where
  | fuelOut
  | pyErr (msg : String)
deriving DecidableEq

/-- The sprint loop of `analyze_spillovers` (src/jira-spillover.py lines
76-103): a sprint whose `startDate` or `endDate` is missing (absent, null or
empty) is skipped by `continue`; otherwise its issues are fetched and
processed.  The result pairs the accumulated records with a fetch log of
`(sprint id, request offsets)` entries, one per issue fetch actually made. -/
def analyzeLoop (server : Server) (fuel : Nat) :
    List Sprint → Except RunErr (List Row × List (Nat × List Nat))
  | [] => .ok ([], [])
  | sprint :: rest =>
    let sprint_start := pyGet sprint.startDate
    let sprint_end := pyGet sprint.endDate
    if !pyTruthyStr sprint_start || !pyTruthyStr sprint_end then
      analyzeLoop server fuel rest
    else
      match get_issues_for_sprint server fuel sprint.id with
      | none => .error .fuelOut
      | some (issues, reqs) =>
        match processIssues sprint.name (sprint_start.getD "") (sprint_end.getD "") issues with
        | .error e => .error (.pyErr e)
        | .ok rows =>
          match analyzeLoop server fuel rest with
          | .error e => .error e
          | .ok (rows2, log2) => .ok (rows ++ rows2, (sprint.id, reqs) :: log2)

/-- The groupby key of a record: pandas `groupby(["Assignee", "Spillover
Reason"])` drops rows in which either key is NaN, so a record only gets a key
when both assignee and reason are non-null. -/
def keyOf (r : Row) : Option (String × String) :=
  match r.assignee, r.reason with
  | some a, some v => some (a, v)
  | _, _ => none

/-- The keys of the rows of `df_spilled` that survive the groupby. -/
def spilledKeys (rows : List Row) : List (String × String) :=
  rows.filterMap keyOf

/-- One row of the pandas `summary` frame: a grouped (assignee, reason) pair
with the issue count (`"Issue Key": "count"`, renamed `Spilled Issues`) and
story-point total (`"Story Points": "sum"`, NaN points counted as 0). -/
structure SummaryRow where
  assignee : String
  reason : String
  spilledIssues : Nat
  storyPoints : Int
deriving DecidableEq

/-- Strict lexicographic comparison of character lists, written so that the
kernel can evaluate it. -/
def charListLt : List Char → List Char → Bool
  | [], [] => false
  | [], _ :: _ => true
  | _ :: _, [] => false
  | a :: as, b :: bs =>
    if a.toNat < b.toNat then true
    else if b.toNat < a.toNat then false
    else charListLt as bs

/-- Lexicographic order on groupby keys as a Bool: pandas sorts group keys by
assignee and then reason. -/
def keyLeB (a b : String × String) : Bool :=
  charListLt a.1.data b.1.data
    || (decide (a.1 = b.1) && (charListLt a.2.data b.2.data || decide (a.2 = b.2)))

/-- Lexicographic order on groupby keys. -/
def keyLe (a b : String × String) : Prop :=
  keyLeB a b = true

instance : DecidableRel keyLe := fun a b =>
  inferInstanceAs (Decidable (keyLeB a b = true))

/-- The aggregate row of one groupby key. -/
def bucketOf (rows : List Row) (k : String × String) : SummaryRow :=
  let group := rows.filter (fun r => keyOf r = some k)
  { assignee := k.1
    reason := k.2
    spilledIssues := group.length
    storyPoints := (group.map (fun r => r.storyPoints.getD 0)).sum }

/-- Embedding of the summary computation (src/jira-spillover.py lines
105-114): filter to records with a non-null reason, group by (assignee,
reason) dropping null keys, and emit one aggregate row per distinct key in
sorted key order. -/
def aggregate (rows : List Row) : List SummaryRow :=
  (List.insertionSort keyLe (spilledKeys rows).dedup).map (bucketOf rows)

/-- The observable result of a successful run: the detailed records, the
summary rows, and the log of issue-fetch requests made. -/
structure Output where
  records : List Row
  summary : List SummaryRow
  fetchLog : List (Nat × List Nat)
deriving DecidableEq

/-- Embedding of `analyze_spillovers()` (src/jira-spillover.py lines 70-131):
fetch the closed sprints, run the sprint loop, and aggregate the records. -/
def analyze_spillovers (server : Server) (fuel : Nat) : Except RunErr Output :=
  match get_sprints server fuel with
  | none => .error .fuelOut
  | some (sprints, _) =>
    match analyzeLoop server fuel sprints with
    | .error e => .error e
    | .ok (records, log) =>
      .ok { records := records, summary := aggregate records, fetchLog := log }

/-- A record counts as "not Done" when its status-category name, lowercased,
differs from "done". -/
def rowNonDone (r : Row) : Bool :=
  match r.status with
  | none => false
  | some s => !(pyLower s == "done")

/-- The status field chain is free of null values, so lines 48 and 54 of the
script cannot raise on it. -/
def statusChainOk (fs : Fields) : Bool :=
  match fs.status with
  | .null => false
  | .absent => true
  | .val o =>
    match o.statusCategory with
    | .null => false
    | .absent => true
    | .val c =>
      match c.name with
      | .null => false
      | _ => true

/-- The assignee field is not null, so line 52 of the script cannot raise. -/
def assigneeOk (fs : Fields) : Bool :=
  match fs.assignee with
  | .null => false
  | _ => true

/-- The status-category name the script computes when the chain is free of
nulls (missing keys defaulting to the empty string). -/
def statusNameOf (fs : Fields) : String :=
  match fs.status with
  | .val o =>
    match o.statusCategory with
    | .val c =>
      match c.name with
      | .val s => s
      | _ => ""
    | _ => ""
  | _ => ""

/-- The assignee value the script computes when the assignee field is not
null: `None` for a null `displayName`, the sentinel for missing keys. -/
def assigneeValOf (fs : Fields) : Option String :=
  match fs.assignee with
  | .val o => pyGetD o.displayName "Unassigned"
  | _ => some "Unassigned"

theorem statusOfFields_ok {fs : Fields} (h : statusChainOk fs = true) :
    statusOfFields fs = .ok (some (statusNameOf fs)) := by
  cases hst : fs.status with
  | absent => simp [statusOfFields, statusNameOf, pyGetD, hst]
  | null => simp [statusChainOk, hst] at h
  | val o =>
    cases hsc : o.statusCategory with
    | absent => simp [statusOfFields, statusNameOf, pyGetD, hst, hsc]
    | null => simp [statusChainOk, hst, hsc] at h
    | val c =>
      cases hn : c.name with
      | absent => simp [statusOfFields, statusNameOf, pyGetD, hst, hsc, hn]
      | null => simp [statusChainOk, hst, hsc, hn] at h
      | val s => simp [statusOfFields, statusNameOf, pyGetD, hst, hsc, hn]

theorem assigneeOfFields_ok {fs : Fields} (h : assigneeOk fs = true) :
    assigneeOfFields fs = .ok (assigneeValOf fs) := by
  cases ha : fs.assignee with
  | absent => simp [assigneeOfFields, assigneeValOf, pyGetD, ha]
  | null => simp [assigneeOk, ha] at h
  | val o => simp [assigneeOfFields, assigneeValOf, pyGetD, ha]

/-- An issue that is unassigned the way Jira actually reports it: the
`assignee` key is present and null.  The script evaluates
`fields.get("assignee", \x7b\x7d).get("displayName", "Unassigned")` on it and the
inner `.get` runs on `None`. -/
def c1Issue : Issue :=
  ⟨"C1", ⟨.val ⟨.val ⟨.val "In Progress"⟩⟩, .absent, .absent, .absent, .null, .absent⟩⟩

/-- C1: the claim says classification never raises and malformed or missing
per-issue fields are replaced by defaults.  The code contradicts this: on an
issue whose `assignee` field is null (the standard Jira representation of an
unassigned issue) the classifier raises `AttributeError` before reaching any
rule.  This theorem evaluates the classifier at that failing input. -/
theorem c1_classifier_raises_on_null_assignee :
    get_spillover_reason c1Issue "100" "200" = .error "AttributeError" := by decide

/-- A "Done" issue whose `assignee` key is present and null. -/
def c2Issue : Issue :=
  ⟨"C2", ⟨.val ⟨.val ⟨.val "Done"⟩⟩, .absent, .absent, .val 13, .null, .absent⟩⟩

/-- C2 counterexample: the claim promises `classify` returns absent for every
"Done" issue regardless of all other fields, but with a null `assignee` field
the code raises before the status check (line 52 runs before line 54). -/
theorem c2_counterexample :
    get_spillover_reason c2Issue "100" "200" = .error "AttributeError" := by decide

/-- C2 (amended): for every issue whose status and assignee field chains are
free of null values, if the status-category name lowercases to "done" the
classifier returns absent, regardless of every other field and of the sprint
bounds (which are not even parsed on this path). -/
theorem c2_done_returns_absent (issue : Issue) (sprint_start sprint_end : String)
    (h1 : statusChainOk issue.fields = true) (h2 : assigneeOk issue.fields = true)
    (h3 : pyLower (statusNameOf issue.fields) = "done") :
    get_spillover_reason issue sprint_start sprint_end = .ok none := by
  unfold get_spillover_reason
  rw [statusOfFields_ok h1, assigneeOfFields_ok h2]
  simp [h3]

/-- A "DONE" issue (upper case) with large story points, late update and
unparseable sprint bounds, used to instantiate the C2 theorem. -/
def c2WIssue : Issue :=
  ⟨"C2W", ⟨.val ⟨.val ⟨.val "DONE"⟩⟩, .val "999", .val "999", .val 13, .absent, .absent⟩⟩

theorem c2_witness :
    (statusChainOk c2WIssue.fields = true ∧ assigneeOk c2WIssue.fields = true ∧
      pyLower (statusNameOf c2WIssue.fields) = "done") ∧
    get_spillover_reason c2WIssue "junk" "junk" = .ok none :=
  ⟨⟨by decide, by decide, by decide⟩,
    c2_done_returns_absent c2WIssue "junk" "junk" (by decide) (by decide) (by decide)⟩

/-- A non-"Done" issue created after sprint start with every later-rule
condition also true, but with a null `assignee` field. -/
def c3Issue : Issue :=
  ⟨"C3", ⟨.val ⟨.val ⟨.val "In Progress"⟩⟩, .val "150", .val "999", .val 9, .null, .absent⟩⟩

/-- C3 counterexample: the claim promises "Scope added mid-sprint" for every
non-"Done" issue created after sprint start, but with a null `assignee` field
the code raises before any rule runs. -/
theorem c3_counterexample :
    get_spillover_reason c3Issue "100" "200" = .error "AttributeError" := by decide

/-- C3 (amended): for every issue whose status and assignee field chains are
free of null values, whose status is not "done", and whose creation time
parses and is strictly after the parsed sprint start, the classifier returns
"Scope added mid-sprint" — with no constraint on story points, update time or
assignee, so rule 2 takes precedence over rules 3-6. -/
theorem c3_created_after_start (issue : Issue) (sprint_start sprint_end : String) (s : Nat)
    (h1 : statusChainOk issue.fields = true) (h2 : assigneeOk issue.fields = true)
    (h3 : ¬ pyLower (statusNameOf issue.fields) = "done")
    (h4 : toDatetimeStrict sprint_start = .ok s)
    (h5 : natGtOpt (toDatetimeCoerce (pyGet issue.fields.created)) s = true) :
    get_spillover_reason issue sprint_start sprint_end = .ok (some "Scope added mid-sprint") := by
  unfold get_spillover_reason
  rw [statusOfFields_ok h1, assigneeOfFields_ok h2]
  simp [h3, h4, h5]

/-- A non-"Done" issue created after sprint start on which rules 3, 4 and 5
would also fire (9 points, updated after sprint end, unassigned sentinel). -/
def c3WIssue : Issue :=
  ⟨"C3W", ⟨.val ⟨.val ⟨.val "In Progress"⟩⟩, .val "150", .val "999", .val 9, .absent, .absent⟩⟩

theorem c3_witness :
    (statusChainOk c3WIssue.fields = true ∧ assigneeOk c3WIssue.fields = true ∧
      ¬ pyLower (statusNameOf c3WIssue.fields) = "done" ∧
      toDatetimeStrict "100" = .ok 100 ∧
      natGtOpt (toDatetimeCoerce (pyGet c3WIssue.fields.created)) 100 = true) ∧
    get_spillover_reason c3WIssue "100" "200" = .ok (some "Scope added mid-sprint") :=
  ⟨⟨by decide, by decide, by decide, by decide, by decide⟩,
    c3_created_after_start c3WIssue "100" "200" 100
      (by decide) (by decide) (by decide) (by decide) (by decide)⟩

/-- A non-"Done" issue with exactly 8 story points, created before sprint
start, but with a null `assignee` field. -/
def c7Issue : Issue :=
  ⟨"C7", ⟨.val ⟨.val ⟨.val "To Do"⟩⟩, .absent, .absent, .val 8, .null, .absent⟩⟩

/-- C7 counterexample: the claim promises "Underestimated effort" for every
non-"Done", not-created-after-start issue with at least 8 story points, but
with a null `assignee` field the code raises before any rule runs. -/
theorem c7_counterexample :
    get_spillover_reason c7Issue "100" "200" = .error "AttributeError" := by decide

/-- C7 (amended): for issues whose status and assignee field chains are free
of null values, are not "done", and are not created after the parsed sprint
start, a present story-point value of at least 8 yields "Underestimated
effort"; and an absent story-point field (which defaults to 0) never yields
"Underestimated effort" on any input at all. -/
theorem c7_story_points_rule :
    (∀ (issue : Issue) (sprint_start sprint_end : String) (s : Nat) (n : Int),
      statusChainOk issue.fields = true → assigneeOk issue.fields = true →
      ¬ pyLower (statusNameOf issue.fields) = "done" →
      toDatetimeStrict sprint_start = .ok s →
      natGtOpt (toDatetimeCoerce (pyGet issue.fields.created)) s = false →
      issue.fields.customfield_10016 = .val n → n ≥ 8 →
      get_spillover_reason issue sprint_start sprint_end = .ok (some "Underestimated effort"))
    ∧ (∀ (issue : Issue) (sprint_start sprint_end : String),
      issue.fields.customfield_10016 = .absent →
      get_spillover_reason issue sprint_start sprint_end ≠ .ok (some "Underestimated effort")) := by
  constructor
  · intro issue sprint_start sprint_end s n h1 h2 h3 h4 h5 h6 h7
    unfold get_spillover_reason
    rw [statusOfFields_ok h1, assigneeOfFields_ok h2]
    have hsp : spCond (pyGetD issue.fields.customfield_10016 0) = true := by
      rw [h6]
      simp [pyGetD, spCond]
      omega
    simp [h3, h4, h5, hsp]
  · intro issue sprint_start sprint_end habs
    have hsp : spCond (pyGetD issue.fields.customfield_10016 0) = false := by
      rw [habs]; rfl
    unfold get_spillover_reason
    cases hst : statusOfFields issue.fields with
    | error e => simp
    | ok status =>
      cases ha : assigneeOfFields issue.fields with
      | error e => simp
      | ok assignee =>
        cases status with
        | none => simp
        | some statusName =>
          by_cases hdone : pyLower statusName = "done"
          · simp [hdone]
          · simp only [hdone, if_false]
            cases hss : toDatetimeStrict sprint_start with
            | error e => simp
            | ok ss =>
              by_cases hcr : natGtOpt (toDatetimeCoerce (pyGet issue.fields.created)) ss = true
              · simp [hcr]
              · simp only [Bool.not_eq_true] at hcr
                simp only [hcr, hsp, if_false, Bool.false_eq_true]
                cases hse : toDatetimeStrict sprint_end with
                | error e => simp
                | ok se =>
                  by_cases hup : natGtOpt (toDatetimeCoerce (pyGet issue.fields.updated)) se = true
                  · simp [hup]
                  · simp only [Bool.not_eq_true] at hup
                    simp only [hup, Bool.false_eq_true, if_false]
                    by_cases hun : assignee = some "Unassigned"
                    · simp [hun]
                    · simp [hun]

/-- A non-"Done" issue with exactly 8 story points, created before sprint
start, assigned, updated late. -/
def c7W1Issue : Issue :=
  ⟨"C7A", ⟨.val ⟨.val ⟨.val "To Do"⟩⟩, .val "50", .val "999", .val 8, .val ⟨.val "Ann"⟩, .absent⟩⟩

/-- A non-"Done" issue whose story-point field is missing entirely. -/
def c7W2Issue : Issue :=
  ⟨"C7B", ⟨.val ⟨.val ⟨.val "To Do"⟩⟩, .val "50", .val "999", .absent, .val ⟨.val "Ann"⟩, .absent⟩⟩

theorem c7_witness :
    get_spillover_reason c7W1Issue "100" "200" = .ok (some "Underestimated effort") ∧
    get_spillover_reason c7W2Issue "100" "200" ≠ .ok (some "Underestimated effort") :=
  ⟨c7_story_points_rule.1 c7W1Issue "100" "200" 100 8
      (by decide) (by decide) (by decide) (by decide) (by decide) (by decide) (by decide),
    c7_story_points_rule.2 c7W2Issue "100" "200" (by decide)⟩

theorem getSprintsLoop_step (server : Server) (fuel start_at : Nat)
    (sprints : List Sprint) (reqs : List Nat) :
    getSprintsLoop server (fuel + 1) start_at sprints reqs =
      (if pyTruthyBool (pyGetD (server.sprintPage start_at).isLast true) then
        some (sprints ++ (server.sprintPage start_at).values, reqs ++ [start_at])
      else
        getSprintsLoop server fuel (start_at + (server.sprintPage start_at).values.length)
          (sprints ++ (server.sprintPage start_at).values) (reqs ++ [start_at])) := rfl

theorem getIssuesLoop_step (server : Server) (sprint_id fuel start_at : Nat)
    (issues : List Issue) (reqs : List Nat) :
    getIssuesLoop server sprint_id (fuel + 1) start_at issues reqs =
      (if pyTruthyBool (pyGetD (server.issuePage sprint_id start_at).isLast true)
          || (server.issuePage sprint_id start_at).issues.length == 0 then
        some (issues ++ (server.issuePage sprint_id start_at).issues, reqs ++ [start_at])
      else
        getIssuesLoop server sprint_id fuel
          (start_at + (server.issuePage sprint_id start_at).issues.length)
          (issues ++ (server.issuePage sprint_id start_at).issues) (reqs ++ [start_at])) := rfl

/-- A server whose sprint endpoint answers offset 0 with an empty page marked
`isLast=false`, and every later offset with an `isLast=true` page. -/
def c4Server : Server where
  sprintPage := fun start_at => if start_at = 0 then ⟨[], .val false⟩ else ⟨[], .val true⟩
  issuePage := fun _ _ => ⟨[], .val true⟩

theorem c4Server_loop_none :
    ∀ (fuel : Nat) (acc : List Sprint) (reqs : List Nat),
      getSprintsLoop c4Server fuel 0 acc reqs = none := by
  intro fuel
  induction fuel with
  | zero => intro acc reqs; rfl
  | succ n ih =>
    intro acc reqs
    rw [getSprintsLoop_step]
    simpa [c4Server, pyGetD, pyTruthyBool] using ih acc (reqs ++ [0])

/-- C4 counterexample: the claim says both fetch loops terminate on an empty
page even before the last-page signal, but `get_sprints` has no empty-page
check: on `c4Server`, which answers offset 0 with an empty `isLast=false`
page (with an `isLast=true` page behind it), the offset never advances and
the loop runs forever — there is no fuel bound at which it returns. -/
theorem c4_counterexample :
    ¬ ∃ (fuel : Nat) (out : List Sprint × List Nat),
        get_sprints c4Server fuel = some out := by
  rintro ⟨fuel, out, h⟩
  have hn : get_sprints c4Server fuel = none := c4Server_loop_none fuel [] []
  rw [hn] at h
  cases h

/-- C4 (amended): the issues loop does stop as soon as a page carries zero
records, even without the last-page signal; the sprints loop checks only the
last-page signal, and on `c4Server` (empty page before an `isLast=true` page)
it never terminates. -/
theorem c4_empty_page_behavior :
    (∀ (server : Server) (sid start_at : Nat) (acc : List Issue) (reqs : List Nat) (fuel : Nat),
        (server.issuePage sid start_at).issues = [] →
        getIssuesLoop server sid (fuel + 1) start_at acc reqs =
          some (acc ++ (server.issuePage sid start_at).issues, reqs ++ [start_at]))
    ∧ (∀ fuel : Nat, get_sprints c4Server fuel = none) := by
  constructor
  · intro server sid start_at acc reqs fuel h
    rw [getIssuesLoop_step]
    simp [h]
  · exact fun fuel => c4Server_loop_none fuel [] []

/-- A server whose issue endpoint always answers with an empty page that is
not marked last. -/
def c4WServer : Server where
  sprintPage := fun _ => ⟨[], .val true⟩
  issuePage := fun _ _ => ⟨[], .val false⟩

theorem c4_witness :
    (c4WServer.issuePage 1 0).issues = [] ∧
    getIssuesLoop c4WServer 1 (0 + 1) 0 [] [] =
      some ([] ++ (c4WServer.issuePage 1 0).issues, [] ++ [0]) :=
  ⟨rfl, c4_empty_page_behavior.1 c4WServer 1 0 [] [] 0 rfl⟩

/-- C10: a page payload without the `isLast` key makes `data.get("isLast",
True)` default to `True`, so both loops append that page and stop — a server
that never sends the indicator yields exactly one page and one request. -/
theorem c10_absent_isLast_stops :
    (∀ (server : Server) (start_at : Nat) (acc : List Sprint) (reqs : List Nat) (fuel : Nat),
        (server.sprintPage start_at).isLast = .absent →
        getSprintsLoop server (fuel + 1) start_at acc reqs =
          some (acc ++ (server.sprintPage start_at).values, reqs ++ [start_at]))
    ∧ (∀ (server : Server) (sid start_at : Nat) (acc : List Issue) (reqs : List Nat) (fuel : Nat),
        (server.issuePage sid start_at).isLast = .absent →
        getIssuesLoop server sid (fuel + 1) start_at acc reqs =
          some (acc ++ (server.issuePage sid start_at).issues, reqs ++ [start_at])) := by
  constructor
  · intro server start_at acc reqs fuel h
    rw [getSprintsLoop_step]
    simp [h, pyGetD, pyTruthyBool]
  · intro server sid start_at acc reqs fuel h
    rw [getIssuesLoop_step]
    simp [h, pyGetD, pyTruthyBool]

/-- A server that never sends the `isLast` indicator on either endpoint. -/
def c10Server : Server where
  sprintPage := fun _ => ⟨[⟨3, "S3", .val "10", .val "20"⟩], .absent⟩
  issuePage := fun _ _ => ⟨[⟨"T-1", ⟨.absent, .absent, .absent, .absent, .absent, .absent⟩⟩], .absent⟩

theorem c10_witness :
    ((c10Server.sprintPage 0).isLast = .absent ∧
      getSprintsLoop c10Server (4 + 1) 0 [] [] =
        some ([] ++ (c10Server.sprintPage 0).values, [] ++ [0])) ∧
    ((c10Server.issuePage 3 0).isLast = .absent ∧
      getIssuesLoop c10Server 3 (4 + 1) 0 [] [] =
        some ([] ++ (c10Server.issuePage 3 0).issues, [] ++ [0])) :=
  ⟨⟨rfl, c10_absent_isLast_stops.1 c10Server 0 [] [] 4 rfl⟩,
    ⟨rfl, c10_absent_isLast_stops.2 c10Server 3 0 [] [] 4 rfl⟩⟩

/-- The n-th mock record served by the three-page server. -/
def mkIssue (n : Nat) : Issue :=
  ⟨Nat.repr n, ⟨.absent, .absent, .absent, .absent, .absent, .absent⟩⟩

/-- A three-page mock issue service: pages of sizes 100, 100 and 40, with
`isLast=true` only on the third, records numbered consecutively. -/
def c5Server : Server where
  sprintPage := fun _ => ⟨[], .absent⟩
  issuePage := fun _ start_at =>
    if start_at = 0 then ⟨(List.range 100).map mkIssue, .val false⟩
    else if start_at = 100 then ⟨(List.range 100).map (fun i => mkIssue (100 + i)), .val false⟩
    else if start_at = 200 then ⟨(List.range 40).map (fun i => mkIssue (200 + i)), .val true⟩
    else ⟨[], .val true⟩

theorem c5_step1 (f : Nat) :
    getIssuesLoop c5Server 1 (f + 1) 0 [] [] =
      getIssuesLoop c5Server 1 f 100 ((List.range 100).map mkIssue) [0] := by
  rw [getIssuesLoop_step]
  norm_num [c5Server, pyGetD, pyTruthyBool]

theorem c5_step2 (f : Nat) :
    getIssuesLoop c5Server 1 (f + 1) 100 ((List.range 100).map mkIssue) [0] =
      getIssuesLoop c5Server 1 f 200
        ((List.range 100).map mkIssue ++ (List.range 100).map (fun i => mkIssue (100 + i)))
        [0, 100] := by
  rw [getIssuesLoop_step]
  norm_num [c5Server, pyGetD, pyTruthyBool]

theorem c5_step3 (f : Nat) (acc : List Issue) :
    getIssuesLoop c5Server 1 (f + 1) 200 acc [0, 100] =
      some (acc ++ (List.range 40).map (fun i => mkIssue (200 + i)), [0, 100, 200]) := by
  rw [getIssuesLoop_step]
  norm_num [c5Server, pyGetD, pyTruthyBool]

/-- C5: against the three-page mock server, `get_issues_for_sprint` returns
exactly the 240 records in order and issues exactly three requests, at
offsets 0, 100 and 200 (each the number of records returned by the prior
pages) — with any fuel left over, so no fourth request is ever made. -/
theorem c5_three_page_fetch : ∀ fuel : Nat,
    get_issues_for_sprint c5Server (fuel + 3) 1 =
      some ((List.range 240).map mkIssue, [0, 100, 200]) := by
  intro fuel
  show getIssuesLoop c5Server 1 ((fuel + 2) + 1) 0 [] [] = _
  rw [c5_step1, c5_step2, c5_step3]
  have h240 : (240 : Nat) = 100 + 100 + 40 := rfl
  rw [h240, List.range_add, List.range_add]
  simp [List.map_append, List.map_map, Function.comp_def, Nat.add_assoc]

/-- C8: a sprint whose `startDate` or `endDate` is missing (the Python
truthiness test fails) is skipped entirely by the sprint loop: the run over
`s :: rest` equals the run over `rest` — same records, same summary inputs,
same fetch log (so no issue request is made for `s`) and no error. -/
theorem c8_dateless_sprint_skipped (server : Server) (fuel : Nat) (s : Sprint)
    (rest : List Sprint)
    (h : (!pyTruthyStr (pyGet s.startDate) || !pyTruthyStr (pyGet s.endDate)) = true) :
    analyzeLoop server fuel (s :: rest) = analyzeLoop server fuel rest := by
  simp [analyzeLoop, h]

/-- A tiny server for instantiating the sprint-skipping theorem. -/
def c8Server : Server where
  sprintPage := fun _ => ⟨[], .absent⟩
  issuePage := fun _ _ => ⟨[], .absent⟩

/-- A sprint with no `startDate`. -/
def c8BadSprint : Sprint := ⟨11, "NoStart", .absent, .val "200"⟩

/-- A sprint with both dates present. -/
def c8GoodSprint : Sprint := ⟨12, "Good", .val "100", .val "200"⟩

theorem c8_witness :
    (!pyTruthyStr (pyGet c8BadSprint.startDate) || !pyTruthyStr (pyGet c8BadSprint.endDate)) = true ∧
    analyzeLoop c8Server 5 [c8BadSprint, c8GoodSprint] = analyzeLoop c8Server 5 [c8GoodSprint] :=
  ⟨by decide, c8_dateless_sprint_skipped c8Server 5 c8BadSprint [c8GoodSprint] (by decide)⟩

/-- C9: the embedded pipeline is a pure function of its input — there is no
hidden mutable state — so running the whole fetch-classify-aggregate pass, or
just the aggregation, twice over the same input produces identical output
(rows, counts, story-point sums and order included). -/
theorem c9_pipeline_deterministic :
    ∀ (server : Server) (fuel : Nat) (rows : List Row),
      analyze_spillovers server fuel = analyze_spillovers server fuel ∧
      aggregate rows = aggregate rows :=
  fun _ _ _ => ⟨rfl, rfl⟩

theorem reason_none_iff_done {issue : Issue} {ss se : String} {reason : Option String}
    (hc : get_spillover_reason issue ss se = .ok reason) :
    ∃ statusName, statusOfFields issue.fields = .ok (some statusName) ∧
      (reason = none ↔ pyLower statusName = "done") := by
  unfold get_spillover_reason at hc
  split at hc
  · exact absurd hc (by simp)
  case _ status hs =>
    split at hc
    · exact absurd hc (by simp)
    case _ assignee ha =>
      cases status with
      | none => exact absurd hc (by simp)
      | some statusName =>
        refine ⟨statusName, hs, ?_⟩
        simp only [] at hc
        by_cases hdone : pyLower statusName = "done"
        · rw [if_pos hdone] at hc
          cases hc
          simp [hdone]
        · rw [if_neg hdone] at hc
          split at hc
          · exact absurd hc (by simp)
          · split at hc
            · cases hc; simp [hdone]
            · split at hc
              · cases hc; simp [hdone]
              · split at hc
                · exact absurd hc (by simp)
                · split at hc
                  · cases hc; simp [hdone]
                  · split at hc
                    · cases hc; simp [hdone]
                    · cases hc; simp [hdone]

theorem processIssue_ok_consistent {sprint_name sprint_start sprint_end : String}
    {issue : Issue} {r : Row}
    (h : processIssue sprint_name sprint_start sprint_end issue = .ok r) :
    r.reason.isSome = rowNonDone r := by
  unfold processIssue at h
  split at h
  · exact absurd h (by simp)
  case _ assignee ha =>
    split at h
    · exact absurd h (by simp)
    case _ status hs =>
      split at h
      · exact absurd h (by simp)
      case _ reason hc =>
        obtain ⟨statusName, hs2, hiff⟩ := reason_none_iff_done hc
        rw [hs] at hs2
        cases hs2
        cases h
        cases hv : reason with
        | none =>
          have := hiff.mp hv
          simp [rowNonDone, this]
        | some v =>
          have hnd : ¬ pyLower statusName = "done" := by
            intro hd
            rw [hiff.mpr hd] at hv
            cases hv
          simp [rowNonDone, hnd]

theorem processIssues_ok_consistent {sprint_name sprint_start sprint_end : String} :
    ∀ {issues : List Issue} {rows : List Row},
      processIssues sprint_name sprint_start sprint_end issues = .ok rows →
      ∀ r ∈ rows, r.reason.isSome = rowNonDone r := by
  intro issues
  induction issues with
  | nil =>
    intro rows h r hr
    cases h
    cases hr
  | cons i t ih =>
    intro rows h r hr
    unfold processIssues at h
    split at h
    · exact absurd h (by simp)
    case _ row hrow =>
      split at h
      · exact absurd h (by simp)
      case _ rows2 hrows2 =>
        cases h
        rcases List.mem_cons.mp hr with h1 | h2
        · subst h1
          exact processIssue_ok_consistent hrow
        · exact ih hrows2 r h2

theorem analyzeLoop_ok_consistent {server : Server} {fuel : Nat} :
    ∀ {sprints : List Sprint} {records : List Row} {log : List (Nat × List Nat)},
      analyzeLoop server fuel sprints = .ok (records, log) →
      ∀ r ∈ records, r.reason.isSome = rowNonDone r := by
  intro sprints
  induction sprints with
  | nil =>
    intro records log h r hr
    cases h
    cases hr
  | cons s t ih =>
    intro records log h r hr
    unfold analyzeLoop at h
    simp only [] at h
    by_cases hskip : (!pyTruthyStr (pyGet s.startDate) || !pyTruthyStr (pyGet s.endDate)) = true
    · rw [if_pos hskip] at h
      exact ih h r hr
    · rw [if_neg hskip] at h
      cases hfetch : get_issues_for_sprint server fuel s.id with
      | none =>
        rw [hfetch] at h
        exact absurd h (by simp)
      | some pr =>
        obtain ⟨issues, reqs⟩ := pr
        rw [hfetch] at h
        simp only [] at h
        cases hrows : processIssues s.name ((pyGet s.startDate).getD "") ((pyGet s.endDate).getD "") issues with
        | error e =>
          rw [hrows] at h
          exact absurd h (by simp)
        | ok rows =>
          rw [hrows] at h
          simp only [] at h
          cases hrec : analyzeLoop server fuel t with
          | error e =>
            rw [hrec] at h
            exact absurd h (by simp)
          | ok pr2 =>
            obtain ⟨rows2, log2⟩ := pr2
            rw [hrec] at h
            simp only [] at h
            cases h
            rcases List.mem_append.mp hr with h1 | h2
            · exact processIssues_ok_consistent hrows r h1
            · exact ih hrec r h2

theorem aggregate_keys (rows : List Row) :
    (aggregate rows).map (fun b => (b.assignee, b.reason)) =
      List.insertionSort keyLe (spilledKeys rows).dedup := by
  unfold aggregate
  rw [List.map_map]
  have hfun : ((fun b : SummaryRow => (b.assignee, b.reason)) ∘ bucketOf rows) = id :=
    funext fun k => rfl
  rw [hfun, List.map_id]

theorem aggregate_keys_nodup (rows : List Row) :
    ((aggregate rows).map (fun b => (b.assignee, b.reason))).Nodup := by
  rw [aggregate_keys]
  exact ((List.perm_insertionSort keyLe (spilledKeys rows).dedup).nodup_iff).mpr
    (List.nodup_dedup _)

theorem aggregate_keys_mem {rows : List Row} {k : String × String}
    (hk : k ∈ spilledKeys rows) :
    k ∈ (aggregate rows).map (fun b => (b.assignee, b.reason)) := by
  rw [aggregate_keys]
  exact ((List.perm_insertionSort keyLe (spilledKeys rows).dedup).mem_iff).mpr
    (List.mem_dedup.mpr hk)

theorem length_filter_keyOf (k : String × String) :
    ∀ rows : List Row,
      (rows.filter (fun r => keyOf r = some k)).length =
        ((rows.filterMap keyOf).filter (fun x => x = k)).length := by
  intro rows
  induction rows with
  | nil => rfl
  | cons r t ih =>
    cases hk : keyOf r with
    | none => simp [List.filter_cons, List.filterMap_cons, hk, ih]
    | some k2 =>
      by_cases hkk : k2 = k
      · subst hkk
        simp [List.filter_cons, List.filterMap_cons, hk, ih]
      · simp [List.filter_cons, List.filterMap_cons, hk, hkk, ih]

theorem sum_indicator_not_mem (a : String × String) :
    ∀ l : List (String × String), a ∉ l →
      (l.map (fun k => if a = k then 1 else 0)).sum = 0 := by
  intro l
  induction l with
  | nil => intro _; rfl
  | cons b t ih =>
    intro h
    have hne : a ≠ b := fun he => h (by rw [he]; exact List.mem_cons_self b t)
    have h2 : a ∉ t := fun ht2 => h (List.mem_cons_of_mem b ht2)
    simp [hne, ih h2]

theorem sum_indicator_mem (a : String × String) :
    ∀ l : List (String × String), l.Nodup → a ∈ l →
      (l.map (fun k => if a = k then 1 else 0)).sum = 1 := by
  intro l
  induction l with
  | nil => intro _ h; cases h
  | cons b t ih =>
    intro hnd hmem
    rcases List.mem_cons.mp hmem with h1 | h2
    · subst h1
      exact by simp [sum_indicator_not_mem a t (List.nodup_cons.mp hnd).1]
    · have hne : a ≠ b := by
        intro he
        subst he
        exact (List.nodup_cons.mp hnd).1 h2
      simp [hne, ih (List.nodup_cons.mp hnd).2 h2]

theorem length_filter_zero_of_not_mem (a : String × String) :
    ∀ l : List (String × String), a ∉ l → (l.filter (fun x => x = a)).length = 0 := by
  intro l
  induction l with
  | nil => intro _; rfl
  | cons b t ih =>
    intro h
    have hne : b ≠ a := fun he => h (by rw [← he]; exact List.mem_cons_self b t)
    have h2 : a ∉ t := fun ht2 => h (List.mem_cons_of_mem b ht2)
    simp [List.filter_cons, hne, ih h2]

theorem sum_dedup_filter_length :
    ∀ L : List (String × String),
      (L.dedup.map (fun k => (L.filter (fun x => x = k)).length)).sum = L.length := by
  intro L
  induction L with
  | nil => rfl
  | cons a t ih =>
    have hsplit : (fun k => ((a :: t).filter (fun x => x = k)).length)
        = fun k => (t.filter (fun x => x = k)).length + (if a = k then 1 else 0) := by
      funext k
      by_cases hak : a = k
      · simp [List.filter_cons, hak]
      · simp [List.filter_cons, hak]
    by_cases ha : a ∈ t
    · rw [List.dedup_cons_of_mem ha, hsplit, List.sum_map_add, ih,
        sum_indicator_mem a t.dedup (List.nodup_dedup t) (List.mem_dedup.mpr ha)]
      simp
    · rw [List.dedup_cons_of_not_mem ha, List.map_cons, List.sum_cons, hsplit]
      rw [List.sum_map_add, ih,
        sum_indicator_not_mem a t.dedup (fun hm => ha (List.mem_dedup.mp hm))]
      simp [List.filter_cons, length_filter_zero_of_not_mem a t ha, Nat.add_comm]

theorem sum_counts_dedup (L : List (String × String)) :
    ((List.insertionSort keyLe L.dedup).map
        (fun k => (L.filter (fun x => x = k)).length)).sum = L.length := by
  have hperm := (List.perm_insertionSort keyLe L.dedup).map
    (fun k => (L.filter (fun x => x = k)).length)
  rw [hperm.sum_eq]
  exact sum_dedup_filter_length L

theorem aggregate_count_sum (rows : List Row) :
    ((aggregate rows).map (fun b => b.spilledIssues)).sum = (spilledKeys rows).length := by
  unfold aggregate
  rw [List.map_map]
  have hfun : ((fun b : SummaryRow => b.spilledIssues) ∘ bucketOf rows)
      = fun k => ((spilledKeys rows).filter (fun x => x = k)).length := by
    funext k
    show (rows.filter (fun r => keyOf r = some k)).length = _
    exact length_filter_keyOf k rows
  rw [hfun]
  exact sum_counts_dedup (spilledKeys rows)

theorem spilledKeys_length :
    ∀ {rows : List Row}, (∀ r ∈ rows, r.reason.isSome = rowNonDone r) →
      (spilledKeys rows).length =
        (rows.filter (fun r => rowNonDone r && r.assignee.isSome)).length := by
  intro rows
  induction rows with
  | nil => intro _; rfl
  | cons r t ih =>
    intro h
    have hr := h r (List.mem_cons_self r t)
    have ht := ih (fun x hx => h x (List.mem_cons_of_mem r hx))
    simp only [spilledKeys] at ht
    cases ha : r.assignee with
    | none =>
      cases hv : r.reason with
      | none =>
        have hnd : rowNonDone r = false := by rw [← hr, hv]; rfl
        simp [spilledKeys, List.filterMap_cons, List.filter_cons, keyOf, ha, hv, hnd, ht]
      | some v =>
        simp [spilledKeys, List.filterMap_cons, List.filter_cons, keyOf, ha, hv, ht]
    | some a =>
      cases hv : r.reason with
      | none =>
        have hnd : rowNonDone r = false := by rw [← hr, hv]; rfl
        simp [spilledKeys, List.filterMap_cons, List.filter_cons, keyOf, ha, hv, hnd, ht]
      | some v =>
        have hnd : rowNonDone r = true := by rw [← hr, hv]; rfl
        simp [spilledKeys, List.filterMap_cons, List.filter_cons, keyOf, ha, hv, hnd, ht]

/-- C6 (amended): on any run that completes without error, the summary keys
are pairwise distinct and every record whose groupby key survives (non-null
assignee and non-null reason) lands in exactly one bucket; and the sum of the
bucket counts equals the number of non-"Done" records with a non-null
assignee display value — not the number of all non-"Done" records, because
pandas `groupby` drops rows whose assignee key is NaN. -/
theorem c6_aggregation_invariant (server : Server) (fuel : Nat) (out : Output)
    (h : analyze_spillovers server fuel = .ok out) :
    ((out.summary.map (fun b => (b.assignee, b.reason))).Nodup)
    ∧ (∀ r ∈ out.records, ∀ k, keyOf r = some k →
        k ∈ out.summary.map (fun b => (b.assignee, b.reason)))
    ∧ ((out.summary.map (fun b => b.spilledIssues)).sum =
        (out.records.filter (fun r => rowNonDone r && r.assignee.isSome)).length) := by
  unfold analyze_spillovers at h
  cases hsp : get_sprints server fuel with
  | none =>
    rw [hsp] at h
    exact absurd h (by simp)
  | some pr =>
    obtain ⟨sprints, log0⟩ := pr
    rw [hsp] at h
    simp only [] at h
    cases hloop : analyzeLoop server fuel sprints with
    | error e =>
      rw [hloop] at h
      exact absurd h (by simp)
    | ok pr2 =>
      obtain ⟨records, log⟩ := pr2
      rw [hloop] at h
      simp only [] at h
      cases h
      have hcons := analyzeLoop_ok_consistent hloop
      refine ⟨aggregate_keys_nodup records, ?_, ?_⟩
      · intro r hr k hk
        exact aggregate_keys_mem (List.mem_filterMap.mpr ⟨r, hr, hk⟩)
      · rw [aggregate_count_sum]
        exact spilledKeys_length hcons

/-- A non-"Done" issue whose `assignee` object is present but whose
`displayName` is null: the record gets a NaN assignee and a non-absent
reason. -/
def c6Issue : Issue :=
  ⟨"X", ⟨.val ⟨.val ⟨.val "To Do"⟩⟩, .absent, .absent, .absent, .val ⟨.null⟩, .absent⟩⟩

/-- One sprint, one spilled issue with a NaN assignee. -/
def c6Server : Server where
  sprintPage := fun _ => ⟨[⟨7, "S", .val "100", .val "200"⟩], .absent⟩
  issuePage := fun _ _ => ⟨[c6Issue], .val true⟩

/-- C6 counterexample: on `c6Server` the run succeeds with one non-"Done"
record (reason "General delay / blocked"), yet the summary is empty — the sum
of bucket counts is 0, not 1 — because pandas `groupby` drops the NaN
assignee key.  A spilled record can therefore belong to no bucket. -/
theorem c6_counterexample :
    (analyze_spillovers c6Server 3).toOption.map
        (fun o => ((o.summary.map (fun b => b.spilledIssues)).sum,
          (o.records.filter (fun r => rowNonDone r)).length)) = some (0, 1) := by decide

/-- A well-behaved two-sprint server (the second sprint lacks a start date
and is skipped); three issues, one "Done". -/
def c6WServer : Server where
  sprintPage := fun _ =>
    ⟨[⟨1, "Sprint 1", .val "100", .val "200"⟩, ⟨2, "Sprint 2", .absent, .val "300"⟩], .val true⟩
  issuePage := fun _ _ =>
    ⟨[⟨"A-1", ⟨.val ⟨.val ⟨.val "In Progress"⟩⟩, .val "150", .absent, .val 3, .val ⟨.val "Alice"⟩, .val "t1"⟩⟩,
      ⟨"A-2", ⟨.val ⟨.val ⟨.val "Done"⟩⟩, .absent, .absent, .val 5, .val ⟨.val "Bob"⟩, .val "t2"⟩⟩,
      ⟨"A-3", ⟨.val ⟨.val ⟨.val "To Do"⟩⟩, .absent, .val "999", .val 2, .absent, .val "t3"⟩⟩], .val true⟩

/-- The output of the run over `c6WServer`. -/
def c6WOut : Output where
  records :=
    [⟨"Sprint 1", some "Alice", "A-1", some "t1", some "In Progress", some 3,
        some "Scope added mid-sprint"⟩,
      ⟨"Sprint 1", some "Bob", "A-2", some "t2", some "Done", some 5, none⟩,
      ⟨"Sprint 1", some "Unassigned", "A-3", some "t3", some "To Do", some 2,
        some "Carried over work post-sprint"⟩]
  summary :=
    [⟨"Alice", "Scope added mid-sprint", 1, 3⟩,
      ⟨"Unassigned", "Carried over work post-sprint", 1, 2⟩]
  fetchLog := [(1, [0])]

theorem c6_witness :
    analyze_spillovers c6WServer 5 = .ok c6WOut ∧
    (((c6WOut.summary.map (fun b => (b.assignee, b.reason))).Nodup)
      ∧ (∀ r ∈ c6WOut.records, ∀ k, keyOf r = some k →
          k ∈ c6WOut.summary.map (fun b => (b.assignee, b.reason)))
      ∧ ((c6WOut.summary.map (fun b => b.spilledIssues)).sum =
          (c6WOut.records.filter (fun r => rowNonDone r && r.assignee.isSome)).length)) :=
  ⟨by decide, c6_aggregation_invariant c6WServer 5 c6WOut (by decide)⟩
